import Mathlib

/-
Verification of the two CLI front-ends of the mdnsd repository
(src/mdnsd.c, the responder daemon, and src/mquery.c, the query tool)
against their natural-language specification.  The protocol engine
(libmdnsd) is not part of the repository's sources here; the engine
calls the CLIs make are modelled from the spec's description of the
public API (sections 4.5, 5 and 7 of the spec).  Everything about the
CLIs themselves is translated directly from the C sources.
-/

namespace Mdnsd

/-- Modelled from the spec: an abstract DNS message / resource record.
Only the identity of the message and its TTL field are relevant to the
claims (a goodbye emission is a record sent with TTL = 0). -/
structure Msg where
  name : Nat
  ttl : Nat
deriving DecidableEq

/-- Modelled from the spec (sections 4.5 and 5): the engine state a CLI
drives through the public API.  `received` records the parsed inbound
messages the engine has been given via `input`, `outq` is the pending
outbound queue drained by `output`, `owned` the owned records, and
`shutdownFlag` is set once `shutdown` has run (after which further
`input` is silently dropped). -/
structure Daemon where
  received : List Msg
  outq : List Msg
  owned : List Msg
  shutdownFlag : Bool
deriving DecidableEq

/-- Modelled from the spec: `input(decoded_msg, src, now)` hands one
parsed message to the engine; after `shutdown`, further `input` is
silently dropped (spec section 5). -/
def mdnsd_in (d : Daemon) (m : Msg) : Daemon :=
  if d.shutdownFlag then d else { d with received := d.received ++ [m] }

/-- Modelled from the spec: `output(now) -> Option (msg, dst)` pops the
next pending outbound message; `none` means the queue is empty. -/
def mdnsd_out (d : Daemon) : Option (Msg × Daemon) :=
  match d.outq with
  | [] => none
  | m :: rest => some (m, { d with outq := rest })

/-- Modelled from the spec: `shutdown(now)` transitions all owned
records to Goodbye, queueing a TTL = 0 emission for each of them, and
expects the caller to keep pumping `output` until it returns empty. -/
def mdnsd_shutdown (d : Daemon) : Daemon :=
  { d with
    outq := d.outq ++ d.owned.map (fun r => { r with ttl := 0 })
    owned := []
    shutdownFlag := true }

/-- Translation of the receive loop of mquery.c main (lines 325-336):
each datagram read from the socket is parsed; when message_parse
returns 0 (`some m` here) the message is fed to mdnsd_in, otherwise
nothing is done and the loop continues with the next datagram. -/
def recv_loop : Daemon → List (Option Msg) → Daemon
  | d, [] => d
  | d, some m :: rest => recv_loop (mdnsd_in d m) rest
  | d, none :: rest => recv_loop d rest

/-- Translation of the send loop of mquery.c main (lines 338-349):
`while (mdnsd_out(d, &m, &ip, &port)) sendto(...)`.  Returns the engine
state when mdnsd_out finally returns empty, together with the messages
sent, in order. -/
def drain_out (d : Daemon) : Daemon × List Msg :=
  match h : mdnsd_out d with
  | none => (d, [])
  | some md =>
    let r := drain_out md.2
    (r.1, md.1 :: r.2)
termination_by d.outq.length
decreasing_by
  simp only [mdnsd_out] at h
  split at h
  · exact absurd h (by simp)
  · rename_i m rest heq
    simp only [Option.some.injEq] at h
    rw [← h]
    simp [heq]

/-- One select wakeup of mquery.c's event loop: whether FD_ISSET fired,
the parse results of the datagrams then read, whether the read loop
ended in an error other than EAGAIN (mquery.c:332), and whether the
sendto calls of the send loop succeed (mquery.c:345). -/
structure LoopInput where
  readable : Bool
  datagrams : List (Option Msg)
  readErr : Bool
  sendOk : Bool
deriving DecidableEq

/-- Translation of the send loop with its error path (mquery.c:338-349):
a failed or short sendto prints an error and returns 1 from main. -/
def send_loop (d : Daemon) (sendOk : Bool) : Except Nat (Daemon × List Msg) :=
  if sendOk then Except.ok (drain_out d)
  else if d.outq.isEmpty then Except.ok (d, [])
  else Except.error 1

/-- Translation of one iteration of mquery.c main's event loop body
(lines 318-353): when the socket is readable the receive loop runs over
the available datagrams, a read error other than EAGAIN then returns 1
from main; in every surviving case the send loop drains mdnsd_out
before the loop returns to select. -/
def mquery_iteration (d : Daemon) (inp : LoopInput) : Except Nat (Daemon × List Msg) :=
  if inp.readable then
    let d1 := recv_loop d inp.datagrams
    if inp.readErr then Except.error 1 else send_loop d1 inp.sendOk
  else send_loop d inp.sendOk

/-- Translation of mquery.c main's event loop (lines 318-353): the loop
runs one iteration per select wakeup until the wait deadline expires
(the wakeup list is exhausted); an iteration's error exits main with
that code; after the loop, mdnsd_shutdown and mdnsd_free run and main
returns 0 (lines 351-358). -/
def mquery_run : Daemon → List LoopInput → Nat
  | _, [] => 0
  | d, inp :: rest =>
    match mquery_iteration d inp with
    | Except.error c => c
    | Except.ok r => mquery_run r.1 rest

/-- Translation of mquery.c main's initialization and exit code
(lines 304-312): msock's result is compared against -1 only; a null
mdnsd_new returns 1; otherwise the event loop decides the exit code. -/
def mquery_main (sd : Int) (newOk : Bool) (d : Daemon) (inps : List LoopInput) : Nat :=
  if sd = -1 then 1
  else if !newOk then 1
  else mquery_run d inps

/-- Environment outcomes mquery.c's msock depends on: the descriptor
returned by socket(), whether if_nametoindex finds the interface, and
whether bind succeeds. -/
structure MsockEnv where
  socketFd : Int
  ifindexOk : Bool
  bindOk : Bool
deriving DecidableEq

/-- Translation of mquery.c msock (lines 177-240): returns 0 when
socket() fails (mquery.c:189-190), 0 when bind() fails after closing
the descriptor (mquery.c:234-237), and the socket descriptor otherwise.
The setsockopt and group-join calls in between only warn and never
change the return value, and the if_nametoindex fallback only selects
which membership structure is joined. -/
def msock (ifn : Option String) (env : MsockEnv) : Int :=
  if env.socketFd < 0 then 0
  else if env.bindOk then env.socketFd
  else 0

/-- Engine API calls a CLI shutdown path makes, in program order. -/
inductive CliCall
  | shutdown
  | out
  | free
  | closeFd
deriving DecidableEq

/-- Translation of mdnsd.c free_iface (lines 109-115): the calls made,
in order, are mdnsd_shutdown, mdnsd_free, then close(sd) when the
descriptor is valid. -/
def free_iface (sd : Int) : List CliCall :=
  [CliCall.shutdown, CliCall.free] ++ if 0 ≤ sd then [CliCall.closeFd] else []

/-- Translation of mquery.c main's exit path after the wait expires
(lines 355-358): mdnsd_shutdown immediately followed by mdnsd_free. -/
def mquery_exit_calls : List CliCall := [CliCall.shutdown, CliCall.free]

/-- The calls strictly between the first mdnsd_shutdown call of a trace
and the mdnsd_free call that follows it. -/
def calls_between (t : List CliCall) : List CliCall :=
  ((t.dropWhile (fun c => c != CliCall.shutdown)).drop 1).takeWhile
    (fun c => c != CliCall.free)

/-- The claim's draining condition on a shutdown path: mdnsd_out is
called at least once between mdnsd_shutdown and mdnsd_free (a drain
until empty makes at least one such call). -/
def drains_before_free (t : List CliCall) : Bool :=
  (calls_between t).contains CliCall.out

/-- Runs a shutdown-path call trace against the engine model,
collecting the messages actually transmitted by mdnsd_out calls. -/
def run_calls : Daemon → List CliCall → Daemon × List Msg
  | d, [] => (d, [])
  | d, CliCall.shutdown :: t => run_calls (mdnsd_shutdown d) t
  | d, CliCall.out :: t =>
    match mdnsd_out d with
    | none => run_calls d t
    | some md =>
      let r := run_calls md.2 t
      (r.1, md.1 :: r.2)
  | d, CliCall.free :: t => run_calls d t
  | d, CliCall.closeFd :: t => run_calls d t

/-- Interface state relevant to conflict handling and reload: the
host-id suffix mdnsd.c appends to names, the interface's published
records, and a configuration generation counting conf_init re-reads
(records_clear and conf_init live outside src/; modelled from the
spec's configuration collaborator, section 6). -/
structure Iface where
  hostid : Nat
  records : List Msg
  confGen : Nat
deriving DecidableEq

/-- Translation of mdnsd.c mdnsd_conflict (lines 61-70), acting on the
global reload flag and the interface passed as callback argument: when
no reload is pending the host-id is incremented and reload is set to 1;
otherwise nothing changes. -/
def mdnsd_conflict (reload : Bool) (iface : Iface) : Bool × Iface :=
  if !reload then (true, { iface with hostid := iface.hostid + 1 })
  else (reload, iface)

/-- Translation of mdnsd.c main's reload handling (lines 422-430):
for every interface, records_clear empties the record store and
conf_init re-reads the configuration (modelled from the spec as a
generation bump), after which the reload flag is cleared. -/
def process_reload (ifaces : List Iface) : List Iface × Bool :=
  (ifaces.map (fun i => { i with records := [], confGen := i.confGen + 1 }), false)

/-- A burst of n conflict callback firings with no reload processing in
between (the main loop has not yet reached its reload check). -/
def conflict_burst : Nat → Bool × Iface → Bool × Iface
  | 0, s => s
  | n + 1, s => conflict_burst n (mdnsd_conflict s.1 s.2)

/-- Translation of mdnsd.c line 56: the initial value of the global ttl
variable, `int ttl = 255;`. -/
def ttl_initial : Int := 255

/-- Translation of mdnsd.c main's -t option handling (lines 364-369):
without -t the global keeps its initial value; with -t the parsed value
is kept only when within 1..255, otherwise main exits via usage(1). -/
def ttl_after_getopt : Option Int → Option Int
  | none => some ttl_initial
  | some v => if v < 1 ∨ 255 < v then none else some v

/-- Translation of the help text of mdnsd.c usage (line 307): the
default the text documents for -t is 1 (link-local only). -/
def usage_documented_default_ttl : Nat := 1

/-- The values mdnsd.c multicast_socket (lines 202-295) hands to
setsockopt: IP_MULTICAST_TTL gets the ttl parameter (line 260),
IP_MULTICAST_LOOP gets the variable `on`, declared 1 at line 212
(line 249), IP_MULTICAST_ALL gets `flag` after it is set to 0
(lines 252-253), and unicast IP_TTL gets 255 (lines 211, 264). -/
structure SocketOpts where
  multicastTTL : Nat
  multicastLoop : Nat
  multicastAll : Nat
  unicastTTL : Nat
deriving DecidableEq

/-- Translation of the setsockopt values of mdnsd.c multicast_socket as
a function of its unsigned-char ttl parameter. -/
def multicast_socket_opts (ttl : Nat) : SocketOpts :=
  { multicastTTL := ttl
    multicastLoop := 1
    multicastAll := 0
    unicastTTL := 255 }

/-- Translation of the call at mdnsd.c line 139: setup_iface passes the
global ttl cast to unsigned char to multicast_socket. -/
def setup_iface_ttl_arg (ttl : Int) : Nat := (ttl % 256).toNat

/-- Events of one pass of mdnsd.c's main loop that are observable in
the exit code: a reload whose setup_iface fails exits with code 1
(mdnsd.c:127-144, reached through sys_init at line 423); an mdnsd_step
I/O error only frees the interface and the loop continues
(lines 453-458); otherwise the pass is normal.  A termination signal
ends the loop, after which main returns 0 (line 467). -/
inductive MdnsdEvent
  | reloadSetupFail
  | stepError
  | pass
deriving DecidableEq

/-- Exit code contributed by mdnsd.c's main loop over a sequence of
passes: the first reload-time setup failure exits 1; step errors and
normal passes continue; a loop that ends cleanly yields 0. -/
def mdnsd_loop_exit : List MdnsdEvent → Nat
  | [] => 0
  | MdnsdEvent.reloadSetupFail :: _ => 1
  | MdnsdEvent.stepError :: rest => mdnsd_loop_exit rest
  | MdnsdEvent.pass :: rest => mdnsd_loop_exit rest

/-- Translation of mdnsd.c main's exit code (lines 388-467): a daemon()
failure returns 1 (lines 390-393), a setup_iface failure during the
initial sys_init exits 1 (lines 127-144), and otherwise the loop events
decide the code. -/
def mdnsd_main_exit (daemonOk initOk : Bool) (events : List MdnsdEvent) : Nat :=
  if !daemonOk then 1
  else if !initOk then 1
  else mdnsd_loop_exit events

/-- Translation of mdnsd.c line 47: the system interface poll interval,
in seconds. -/
def SYS_INTERVAL : Nat := 10

/-- Translation of mdnsd.c sys_timeout (lines 150-167) on the state
(timeout, before) at monotonic time now: a zero timeout is initialized
to SYS_INTERVAL without firing; afterwards the call fires exactly when
SYS_INTERVAL seconds have passed since `before`.  The timeout value is
never changed once nonzero. -/
def sys_timeout (timeout before now : Nat) : Bool × Nat × Nat :=
  if timeout = 0 then (false, SYS_INTERVAL, now)
  else if before + SYS_INTERVAL ≤ now then (true, timeout, now)
  else (false, timeout, before)

/-- Per-interface outcome of the scheduling pass of mdnsd.c main
(lines 439-459): skipped when the interface is unused or has no socket;
otherwise mdnsd_step's return code and, meaningful when rc = 0, the
seconds of the next deadline it reported. -/
inductive IfaceStep
  | skipped
  | stepped (rc : Nat) (nextSec : Nat)
deriving DecidableEq

/-- Effect of one interface on tv in mdnsd.c main (lines 446-451):
`if (!rc) { if (tv.tv_sec > next.tv_sec) tv = next; }`; skipped
interfaces and step errors leave tv unchanged. -/
def tv_lower (tv : Nat) (s : IfaceStep) : Nat :=
  match s with
  | IfaceStep.skipped => tv
  | IfaceStep.stepped rc nextSec => if rc = 0 ∧ nextSec < tv then nextSec else tv

/-- Translation of the select-timeout computation of mdnsd.c main
(lines 438-451): tv.tv_sec starts at the sys_timeout value and is
lowered to next.tv_sec whenever mdnsd_step succeeds (rc = 0) and
reports an earlier deadline; error outcomes leave tv unchanged. -/
def compute_tv (timeout : Nat) (steps : List IfaceStep) : Nat :=
  steps.foldl tv_lower timeout

/-- A concrete engine state used by witness theorems. -/
def d0 : Daemon :=
  { received := [], outq := [⟨7, 4⟩], owned := [], shutdownFlag := false }

/-- A concrete select wakeup used by witness theorems: readable, one
good datagram followed by one that fails to parse, no errors. -/
def inp0 : LoopInput :=
  { readable := true, datagrams := [some ⟨9, 8⟩, none], readErr := false, sendOk := true }

/-- The send loop drains the whole pending queue: it ends with an empty
outbound queue, having sent exactly the queued messages in order. -/
theorem drain_out_eq (d : Daemon) : drain_out d = ({ d with outq := [] }, d.outq) := by
  generalize hq : d.outq = q
  induction q generalizing d with
  | nil =>
    have hnone : mdnsd_out d = none := by simp [mdnsd_out, hq]
    rw [drain_out, hnone]
    cases d
    simp_all
  | cons m rest ih =>
    have hsome : mdnsd_out d = some (m, { d with outq := rest }) := by
      simp [mdnsd_out, hq]
    rw [drain_out, hsome]
    simp only [ih { d with outq := rest } rfl]

/-- A call trace containing no mdnsd_out call transmits nothing. -/
theorem run_calls_no_out (t : List CliCall) :
    ∀ d : Daemon, CliCall.out ∉ t → (run_calls d t).2 = [] := by
  induction t with
  | nil => intro d _; rfl
  | cons c rest ih =>
    intro d hc
    have hcr : CliCall.out ∉ rest := fun h => hc (List.mem_cons_of_mem _ h)
    cases c with
    | shutdown => simpa [run_calls] using ih _ hcr
    | out => exact absurd (List.mem_cons_self _ _) hc
    | free => simpa [run_calls] using ih _ hcr
    | closeFd => simpa [run_calls] using ih _ hcr

/-- mdnsd_in never changes the shutdown flag. -/
theorem mdnsd_in_shutdownFlag (d : Daemon) (m : Msg) :
    (mdnsd_in d m).shutdownFlag = d.shutdownFlag := by
  unfold mdnsd_in
  split_ifs <;> rfl

/-- The receive loop never changes the shutdown flag. -/
theorem recv_loop_shutdownFlag (pkts : List (Option Msg)) :
    ∀ d : Daemon, (recv_loop d pkts).shutdownFlag = d.shutdownFlag := by
  induction pkts with
  | nil => intro d; rfl
  | cons p rest ih =>
    intro d
    cases p with
    | none => exact ih d
    | some m =>
      have h1 : recv_loop d (some m :: rest) = recv_loop (mdnsd_in d m) rest := rfl
      rw [h1, ih (mdnsd_in d m), mdnsd_in_shutdownFlag]

/-- The messages the engine receives from the receive loop are exactly
the successfully parsed datagrams, in order (none at all once the
engine is shut down). -/
theorem recv_loop_received (pkts : List (Option Msg)) :
    ∀ d : Daemon, (recv_loop d pkts).received =
      d.received ++ (if d.shutdownFlag then [] else pkts.filterMap id) := by
  induction pkts with
  | nil => intro d; cases h : d.shutdownFlag <;> simp [recv_loop, h]
  | cons p rest ih =>
    intro d
    cases p with
    | none =>
      have h1 : recv_loop d (none :: rest) = recv_loop d rest := rfl
      rw [h1, ih d]
      cases h : d.shutdownFlag <;> simp [h]
    | some m =>
      have h1 : recv_loop d (some m :: rest) = recv_loop (mdnsd_in d m) rest := rfl
      rw [h1, ih (mdnsd_in d m)]
      cases h : d.shutdownFlag with
      | true => simp [mdnsd_in, h]
      | false => simp [mdnsd_in, h]

/-- Every error exit of an event-loop iteration of mquery carries exit
code 1. -/
theorem mquery_iteration_error_code (d : Daemon) (inp : LoopInput) (c : Nat)
    (h : mquery_iteration d inp = Except.error c) : c = 1 := by
  simp only [mquery_iteration, send_loop] at h
  split_ifs at h <;> simp_all

/-- mquery's event loop contributes no exit code other than 0 or 1. -/
theorem mquery_run_zero_or_one (inps : List LoopInput) :
    ∀ d : Daemon, mquery_run d inps = 0 ∨ mquery_run d inps = 1 := by
  induction inps with
  | nil => intro d; exact Or.inl rfl
  | cons inp rest ih =>
    intro d
    cases h : mquery_iteration d inp with
    | error c =>
      have hc := mquery_iteration_error_code d inp c h
      right
      simp [mquery_run, h, hc]
    | ok r =>
      simpa [mquery_run, h] using ih r.1

/-- An event loop whose every wakeup is free of read and send errors
runs to the wait deadline and main returns 0. -/
theorem mquery_run_clean :
    ∀ (inps : List LoopInput) (d : Daemon),
      (∀ inp ∈ inps, inp.readErr = false ∧ inp.sendOk = true) →
      mquery_run d inps = 0 := by
  intro inps
  induction inps with
  | nil => intro d _; rfl
  | cons inp rest ih =>
    intro d hc
    obtain ⟨hre, hso⟩ := hc inp (List.mem_cons_self _ _)
    have hrest : ∀ p ∈ rest, p.readErr = false ∧ p.sendOk = true :=
      fun p hp => hc p (List.mem_cons_of_mem _ hp)
    have hit : mquery_iteration d inp =
        Except.ok (drain_out (if inp.readable then recv_loop d inp.datagrams else d)) := by
      by_cases hr : inp.readable <;>
        simp [mquery_iteration, send_loop, hre, hso, hr]
    simp only [mquery_run, hit]
    exact ih _ hrest

/-- A loop with no reload-time setup failure ends with exit code 0. -/
theorem mdnsd_loop_exit_clean :
    ∀ events : List MdnsdEvent,
      (∀ e ∈ events, e ≠ MdnsdEvent.reloadSetupFail) →
      mdnsd_loop_exit events = 0 := by
  intro events
  induction events with
  | nil => intro _; rfl
  | cons e rest ih =>
    intro h
    have he := h e (List.mem_cons_self _ _)
    have hr : ∀ x ∈ rest, x ≠ MdnsdEvent.reloadSetupFail :=
      fun x hx => h x (List.mem_cons_of_mem _ hx)
    cases e with
    | reloadSetupFail => exact absurd rfl he
    | stepError => exact ih hr
    | pass => exact ih hr

/-- Conflict firings while a reload is already pending change nothing. -/
theorem conflict_burst_true (n : Nat) :
    ∀ i : Iface, conflict_burst n (true, i) = (true, i) := by
  induction n with
  | zero => intro i; rfl
  | succ k ih =>
    intro i
    have h1 : conflict_burst (k + 1) (true, i) = conflict_burst k (mdnsd_conflict true i) := rfl
    rw [h1, show mdnsd_conflict true i = (true, i) from rfl]
    exact ih i

/-- One interface never raises tv. -/
theorem tv_lower_le (tv : Nat) (s : IfaceStep) : tv_lower tv s ≤ tv := by
  cases s with
  | skipped => exact le_refl tv
  | stepped rc nx =>
    simp only [tv_lower]
    split_ifs with h
    · exact le_of_lt h.2
    · exact le_refl tv

/-- The computed select timeout never exceeds its starting value. -/
theorem compute_tv_le_init (steps : List IfaceStep) :
    ∀ t0 : Nat, compute_tv t0 steps ≤ t0 := by
  induction steps with
  | nil => intro t0; exact le_refl t0
  | cons s rest ih =>
    intro t0
    exact le_trans (ih (tv_lower t0 s)) (tv_lower_le t0 s)

/-- The computed select timeout never exceeds any deadline a successful
mdnsd_step reported. -/
theorem compute_tv_le_deadline (steps : List IfaceStep) (dl : Nat) :
    ∀ t0 : Nat, IfaceStep.stepped 0 dl ∈ steps → compute_tv t0 steps ≤ dl := by
  induction steps with
  | nil => intro t0 h; exact absurd h (List.not_mem_nil _)
  | cons s rest ih =>
    intro t0 h
    rcases List.mem_cons.mp h with he | hm
    · have hle : tv_lower t0 s ≤ dl := by
        rw [← he]
        simp only [tv_lower]
        split_ifs with hc
        · exact le_refl dl
        · push_neg at hc
          exact hc trivial
      exact le_trans (compute_tv_le_init rest (tv_lower t0 s)) hle
    · exact ih (tv_lower t0 s) hm

/-- C1, counterexample: the claim that each shutdown path keeps
draining mdnsd_out after mdnsd_shutdown is false at concrete inputs:
neither free_iface on a valid descriptor (sd = 3) nor mquery's exit
path makes any mdnsd_out call between mdnsd_shutdown and mdnsd_free,
and running free_iface's trace on a daemon owning one record transmits
nothing, leaving the queued goodbye unsent. -/
theorem c1_counterexample :
    drains_before_free (free_iface 3) = false ∧
    drains_before_free mquery_exit_calls = false ∧
    (run_calls { received := [], outq := [], owned := [⟨1, 120⟩], shutdownFlag := false }
      (free_iface 3)).2 = [] ∧
    (mdnsd_shutdown { received := [], outq := [], owned := [⟨1, 120⟩], shutdownFlag := false }).outq = [⟨1, 0⟩] := by
  decide

/-- C1 (amended): after calling mdnsd_shutdown, both CLIs immediately
call mdnsd_free (and mdnsd closes the socket) without ever calling
mdnsd_out: no shutdown path drains the output queue, so the goodbye
(TTL = 0) emissions that mdnsd_shutdown queues for every owned record
are never transmitted by these paths. -/
theorem c1_no_drain_after_shutdown :
    (∀ sd : Int, drains_before_free (free_iface sd) = false ∧
      CliCall.out ∉ free_iface sd) ∧
    (drains_before_free mquery_exit_calls = false ∧
      CliCall.out ∉ mquery_exit_calls) ∧
    (∀ (d : Daemon) (sd : Int),
      (run_calls d (free_iface sd)).2 = [] ∧ (run_calls d mquery_exit_calls).2 = []) ∧
    (∀ d : Daemon,
      (mdnsd_shutdown d).outq = d.outq ++ d.owned.map (fun r => { r with ttl := 0 })) := by
  have hnoout : ∀ sd : Int, CliCall.out ∉ free_iface sd := by
    intro sd
    by_cases h : (0 : Int) ≤ sd
    · simp only [free_iface, if_pos h]; decide
    · simp only [free_iface, if_neg h]; decide
  refine ⟨fun sd => ⟨?_, hnoout sd⟩, ⟨by decide, by decide⟩, fun d sd => ⟨?_, ?_⟩, fun d => rfl⟩
  · by_cases h : (0 : Int) ≤ sd
    · simp only [free_iface, if_pos h]; decide
    · simp only [free_iface, if_neg h]; decide
  · exact run_calls_no_out _ d (hnoout sd)
  · exact run_calls_no_out _ d (by decide)

/-- C2: the claim says a default-configured mdnsd sets
IP_MULTICAST_TTL to 1, as the program's own usage text documents; the
code initializes the global ttl to 255 (mdnsd.c:56) and, without -t,
passes that value through setup_iface to multicast_socket, so the
socket's IP_MULTICAST_TTL is 255, contradicting the documented 1. -/
theorem c2_default_ttl_is_255 :
    ttl_after_getopt none = some 255 ∧
    setup_iface_ttl_arg ttl_initial = 255 ∧
    (multicast_socket_opts (setup_iface_ttl_arg ttl_initial)).multicastTTL = 255 ∧
    usage_documented_default_ttl = 1 ∧
    (multicast_socket_opts (setup_iface_ttl_arg ttl_initial)).multicastTTL ≠
      usage_documented_default_ttl := by
  refine ⟨rfl, by decide, by decide, rfl, by decide⟩

/-- C3: the claim says every socket created by multicast_socket has
IP_MULTICAST_LOOP set to 0; the code passes the variable `on`, declared
as 1, to that option (mdnsd.c:212, 249), even though its own warning
text speaks of disabling IP_MULTICAST_LOOP: the option value is 1 for
every ttl argument, never 0. -/
theorem c3_multicast_loop_enabled :
    (∀ ttl : Nat, (multicast_socket_opts ttl).multicastLoop = 1) ∧
    (multicast_socket_opts (setup_iface_ttl_arg ttl_initial)).multicastLoop ≠ 0 := by
  exact ⟨fun _ => rfl, by decide⟩

/-- C4, counterexample: a run of mquery whose initialization succeeded
(socket 3, mdnsd_new non-null) exits with code 1 on a run-time socket
read error, and mdnsd exits 1 when setup_iface fails during a reload
after a successful start — so exit code 1 is not reserved for fatal
initialization failures. -/
theorem c4_counterexample :
    mquery_main 3 true
      { received := [], outq := [], owned := [], shutdownFlag := false }
      [{ readable := true, datagrams := [], readErr := true, sendOk := true }] = 1 ∧
    (3 : Int) ≠ -1 ∧
    mdnsd_main_exit true true [MdnsdEvent.reloadSetupFail] = 1 := by
  decide

/-- C4 (amended): both CLIs exit only with codes 0 or 1; 0 is returned
exactly on clean shutdown (initialization succeeded and the loop ran
without read/send errors resp. without a reload-time setup failure);
1 is returned on fatal initialization failure and also on run-time
failures: mquery's socket read and send errors, and mdnsd's setup_iface
failure during a reload. -/
theorem c4_exit_codes (sd : Int) (newOk : Bool) (d : Daemon)
    (inps : List LoopInput) (events : List MdnsdEvent) :
    (mquery_main sd newOk d inps = 0 ∨ mquery_main sd newOk d inps = 1) ∧
    (sd = -1 → mquery_main sd newOk d inps = 1) ∧
    (newOk = false → mquery_main sd newOk d inps = 1) ∧
    ((∀ inp ∈ inps, inp.readErr = false ∧ inp.sendOk = true) → sd ≠ -1 →
      newOk = true → mquery_main sd newOk d inps = 0) ∧
    ((∀ e ∈ events, e ≠ MdnsdEvent.reloadSetupFail) → mdnsd_loop_exit events = 0) ∧
    mdnsd_main_exit false true events = 1 ∧
    mdnsd_main_exit true false events = 1 ∧
    mdnsd_main_exit true true [MdnsdEvent.stepError] = 0 := by
  refine ⟨?_, ?_, ?_, ?_, mdnsd_loop_exit_clean events, rfl, rfl, rfl⟩
  · by_cases hsd : sd = -1
    · right; simp [mquery_main, hsd]
    · cases newOk with
      | false => right; simp [mquery_main, hsd]
      | true => simpa [mquery_main, hsd] using mquery_run_zero_or_one inps d
  · intro hsd; simp [mquery_main, hsd]
  · intro hok; subst hok; by_cases hsd : sd = -1 <;> simp [mquery_main, hsd]
  · intro hclean hsd hok
    subst hok
    simp only [mquery_main, if_neg hsd]
    simpa using mquery_run_clean inps d hclean

/-- C4, witness for the amended theorem at concrete inputs. -/
theorem c4_exit_codes_witness :
    (mquery_main 3 true
        { received := [], outq := [], owned := [], shutdownFlag := false }
        [] = 0 ∨
      mquery_main 3 true
        { received := [], outq := [], owned := [], shutdownFlag := false }
        [] = 1) ∧
    ((3 : Int) = -1 → mquery_main 3 true
        { received := [], outq := [], owned := [], shutdownFlag := false } [] = 1) ∧
    (true = false → mquery_main 3 true
        { received := [], outq := [], owned := [], shutdownFlag := false } [] = 1) ∧
    ((∀ inp ∈ ([] : List LoopInput), inp.readErr = false ∧ inp.sendOk = true) →
      (3 : Int) ≠ -1 → true = true →
      mquery_main 3 true
        { received := [], outq := [], owned := [], shutdownFlag := false } [] = 0) ∧
    ((∀ e ∈ ([] : List MdnsdEvent), e ≠ MdnsdEvent.reloadSetupFail) →
      mdnsd_loop_exit [] = 0) ∧
    mdnsd_main_exit false true [] = 1 ∧
    mdnsd_main_exit true false [] = 1 ∧
    mdnsd_main_exit true true [MdnsdEvent.stepError] = 0 :=
  c4_exit_codes 3 true
    { received := [], outq := [], owned := [], shutdownFlag := false } [] []

/-- C5, counterexample: the conflict handler does not increment the
interface's host-id whenever it fires: when a reload is already pending
(reload = 1, as after a SIGHUP or an earlier conflict) the host-id is
left unchanged. -/
theorem c5_counterexample :
    (mdnsd_conflict true { hostid := 5, records := [], confGen := 0 }).2.hostid = 5 ∧
    (mdnsd_conflict true { hostid := 5, records := [], confGen := 0 }).2.hostid ≠ 5 + 1 := by
  decide

/-- C5 (amended): when the conflict callback fires with no reload
pending, the handler increments the interface's host-id and raises the
reload flag; when a reload is already pending the host-id is left
unchanged (the pending reload still covers the conflict).  On the next
loop pass the reload handling clears every interface's records and
re-reads the configuration, and lowers the flag — the daemon
renames-and-republishes rather than report-only. -/
theorem c5_conflict_reload (i : Iface) (ifaces : List Iface) :
    mdnsd_conflict false i = (true, { i with hostid := i.hostid + 1 }) ∧
    mdnsd_conflict true i = (true, i) ∧
    (process_reload ifaces).1 =
      ifaces.map (fun j => { j with records := [], confGen := j.confGen + 1 }) ∧
    ((process_reload ifaces).1.all fun j => j.records.isEmpty) = true ∧
    (process_reload ifaces).2 = false := by
  refine ⟨rfl, rfl, rfl, ?_, rfl⟩
  simp [process_reload, List.all_eq_true]

/-- C6: in every completing iteration of mquery's event loop, the
datagrams are read and their parsed messages fed to mdnsd_in first, and
then mdnsd_out is drained until it returns empty, so the loop returns
to select with the engine's output queue empty. -/
theorem c6_loop_drains_before_sleep (d : Daemon) (inp : LoopInput)
    (hre : inp.readErr = false) (hso : inp.sendOk = true) :
    ∃ dEnd sent,
      mquery_iteration d inp = Except.ok (dEnd, sent) ∧
      dEnd.outq = [] ∧
      mdnsd_out dEnd = none ∧
      sent = (if inp.readable then recv_loop d inp.datagrams else d).outq ∧
      dEnd.received = (if inp.readable then recv_loop d inp.datagrams else d).received := by
  by_cases hr : inp.readable
  · refine ⟨{ recv_loop d inp.datagrams with outq := [] },
      (recv_loop d inp.datagrams).outq, ?_, rfl, rfl, by rw [if_pos hr], by rw [if_pos hr]⟩
    simp only [mquery_iteration, hr, if_true, hre, Bool.false_eq_true, if_false,
      send_loop, hso]
    rw [drain_out_eq]
  · refine ⟨{ d with outq := [] }, d.outq, ?_, rfl, rfl, by rw [if_neg hr], by rw [if_neg hr]⟩
    simp only [mquery_iteration, hr, Bool.false_eq_true, if_false, send_loop, hso, if_true]
    rw [drain_out_eq]

/-- C6, witness at a concrete engine state and wakeup. -/
theorem c6_loop_drains_witness :
    inp0.readErr = false ∧ inp0.sendOk = true ∧
    (∃ dEnd sent,
      mquery_iteration d0 inp0 = Except.ok (dEnd, sent) ∧
      dEnd.outq = [] ∧
      mdnsd_out dEnd = none ∧
      sent = (if inp0.readable then recv_loop d0 inp0.datagrams else d0).outq ∧
      dEnd.received = (if inp0.readable then recv_loop d0 inp0.datagrams else d0).received) :=
  ⟨rfl, rfl, c6_loop_drains_before_sleep d0 inp0 rfl rfl⟩

/-- C7: a datagram whose DNS decoding fails is dropped silently by
mquery's receive loop: the messages the engine receives are exactly the
successfully parsed ones, a failed parse changes nothing and the loop
continues with the next datagram, and the loop is a total function (no
crash or exit on malformed input). -/
theorem c7_parse_failure_dropped (d : Daemon) (pkts rest : List (Option Msg)) :
    (recv_loop d pkts).received =
      d.received ++ (if d.shutdownFlag then [] else pkts.filterMap id) ∧
    recv_loop d (none :: rest) = recv_loop d rest ∧
    (recv_loop d pkts).shutdownFlag = d.shutdownFlag :=
  ⟨recv_loop_received pkts d, rfl, recv_loop_shutdownFlag pkts d⟩

/-- C8: mquery's msock returns 0 on every failure path (socket creation
or bind failure) and the non-negative socket descriptor otherwise, so
it never returns -1 and the 'Failed creating multicast socket' exit in
main (which tests sd == -1 only) is unreachable: main's exit code never
comes from that branch. -/
theorem c8_msock_never_minus_one (ifn : Option String) (env : MsockEnv) :
    0 ≤ msock ifn env ∧
    msock ifn env ≠ -1 ∧
    (env.socketFd < 0 → msock ifn env = 0) ∧
    (env.bindOk = false → msock ifn env = 0) ∧
    (∀ (newOk : Bool) (d : Daemon) (inps : List LoopInput),
      mquery_main (msock ifn env) newOk d inps =
        if newOk then mquery_run d inps else 1) := by
  have h0 : 0 ≤ msock ifn env := by
    unfold msock
    split_ifs with h1 h2
    · exact le_refl 0
    · omega
    · exact le_refl 0
  have hne : msock ifn env ≠ -1 := by omega
  refine ⟨h0, hne, ?_, ?_, ?_⟩
  · intro h; unfold msock; rw [if_pos h]
  · intro h
    unfold msock
    split_ifs with h1 h2
    · rfl
    · rw [h] at h2; exact absurd h2 (by simp)
    · rfl
  · intro newOk d inps
    simp only [mquery_main, if_neg hne]
    cases newOk <;> simp

/-- C9: between two configuration reloads an interface's host-id grows
by at most one: however many conflict callbacks fire before the reload
flag is cleared, only the first (with no reload pending) increments it,
and with a reload already pending nothing changes at all. -/
theorem c9_hostid_bounded (n : Nat) (r : Bool) (i : Iface) :
    (conflict_burst n (r, i)).2.hostid ≤ i.hostid + 1 ∧
    conflict_burst n (true, i) = (true, i) ∧
    (0 < n → conflict_burst n (false, i) = (true, { i with hostid := i.hostid + 1 })) := by
  have hfalse : ∀ k : Nat,
      conflict_burst (k + 1) (false, i) = (true, { i with hostid := i.hostid + 1 }) := by
    intro k
    have h1 : conflict_burst (k + 1) (false, i) =
        conflict_burst k (mdnsd_conflict false i) := rfl
    rw [h1, show mdnsd_conflict false i = (true, { i with hostid := i.hostid + 1 }) from rfl]
    exact conflict_burst_true k _
  refine ⟨?_, conflict_burst_true n i, ?_⟩
  · cases r with
    | true => rw [conflict_burst_true n i]; exact Nat.le_succ _
    | false =>
      cases n with
      | zero => simp [conflict_burst]
      | succ k => rw [hfalse k]
  · intro hn
    cases n with
    | zero => omega
    | succ k => exact hfalse k

/-- C9, witness at a concrete burst. -/
theorem c9_hostid_bounded_witness :
    (conflict_burst 3 (false, { hostid := 4, records := [], confGen := 0 })).2.hostid ≤ 4 + 1 ∧
    conflict_burst 3 (true, { hostid := 4, records := [], confGen := 0 }) =
      (true, { hostid := 4, records := [], confGen := 0 }) ∧
    (0 < 3 → conflict_burst 3 (false, { hostid := 4, records := [], confGen := 0 }) =
      (true, { hostid := 4 + 1, records := [], confGen := 0 })) :=
  c9_hostid_bounded 3 false { hostid := 4, records := [], confGen := 0 }

/-- C10: the select timeout of mdnsd's main loop: sys_timeout pins the
base timeout at SYS_INTERVAL = 10 seconds (initializing a zero timeout
to it and never changing it afterwards), and the per-interface pass
only ever lowers tv, to the nearest deadline a successful mdnsd_step
reported — so the computed sleep never exceeds 10 seconds nor any
reported deadline. -/
theorem c10_select_timeout_bounded (before now dl : Nat) (steps : List IfaceStep) :
    (sys_timeout 0 before now).2.1 = SYS_INTERVAL ∧
    (sys_timeout SYS_INTERVAL before now).2.1 = SYS_INTERVAL ∧
    compute_tv SYS_INTERVAL steps ≤ SYS_INTERVAL ∧
    (IfaceStep.stepped 0 dl ∈ steps → compute_tv SYS_INTERVAL steps ≤ dl) ∧
    (∀ t0 : Nat, compute_tv t0 steps ≤ t0) := by
  refine ⟨rfl, ?_, compute_tv_le_init steps _,
    fun h => compute_tv_le_deadline steps dl _ h, compute_tv_le_init steps⟩
  unfold sys_timeout
  split_ifs <;> rfl

/-- C10, witness at a concrete pass. -/
theorem c10_select_timeout_witness :
    (sys_timeout 0 0 0).2.1 = SYS_INTERVAL ∧
    (sys_timeout SYS_INTERVAL 0 0).2.1 = SYS_INTERVAL ∧
    compute_tv SYS_INTERVAL [IfaceStep.stepped 0 2] ≤ SYS_INTERVAL ∧
    (IfaceStep.stepped 0 2 ∈ [IfaceStep.stepped 0 2] →
      compute_tv SYS_INTERVAL [IfaceStep.stepped 0 2] ≤ 2) ∧
    (∀ t0 : Nat, compute_tv t0 [IfaceStep.stepped 0 2] ≤ t0) :=
  c10_select_timeout_bounded 0 0 2 [IfaceStep.stepped 0 2]

end Mdnsd
